import Mathlib

/-!
Shallow embedding of the ZWO AM mount driver core
(`src/indigo_drivers/mount_asi/indigo_mount_asi.c`).

Two levels of the wire channel are modelled:

* `asi_command` (byte level): the flush / write / read-until-terminator loop of
  the C function `asi_command` (lines 158-217), over an explicit `Link` whose
  behaviour (pending bytes, write success, read events) is given as data.

* `exchange` (exchange level): for the higher-level operations the channel is a
  script of whole-exchange outcomes (`Reply`), and a trace records every wire
  command an operation issues, in order.  `Reply.fail` stands for a transport
  failure of `asi_command` (which makes it return `false`), `Reply.ok r` for a
  successful exchange whose accumulated reply is `r`.

External collaborators that are not part of this repository's source
(`indigo_dtos`/`indigo_stod` angle formatting, `indigo_eq_to_j2k` epoch
conversion, libc `gmtime_r`/`mktime`/`sscanf`/`printf`) are modelled at their
documented interfaces where a claim needs them and abstracted otherwise; each
such place is marked in the doc comment of the definition.
-/

namespace MountAsi

/-- Outcome of one whole command exchange, as scripted by the device side. -/
inductive Reply where
  | ok (r : String)
  | fail
deriving DecidableEq, Repr

/-- The exchange-level channel: the remaining device script and the trace of
commands written to the wire so far (oldest first). -/
structure PChan where
  script : List Reply
  trace : List String
deriving DecidableEq, Repr

/-- One exchange on the channel: the command is written (recorded in the
trace), and the head of the script decides success and the reply text.  An
exhausted script behaves like a transport failure.  Mirrors one call of the C
`asi_command`; for calls with `response == NULL` only the boolean matters. -/
def exchange (ch : PChan) (cmd : String) : Bool × String × PChan :=
  match ch.script with
  | [] => (false, "", ⟨[], ch.trace ++ [cmd]⟩)
  | Reply.fail :: rest => (false, "", ⟨rest, ch.trace ++ [cmd]⟩)
  | Reply.ok r :: rest => (true, r, ⟨rest, ch.trace ++ [cmd]⟩)

/-- First character of a reply buffer: C `*response`.  For an empty reply the C
buffer holds the NUL terminator, which compares unequal to any accept byte,
matching `none` here. -/
def responseHead (s : String) : Option Char := s.data.head?

/-- C `isspace` for the characters `sscanf` skips before `%d`. -/
def isSpaceC (c : Char) : Bool := c = ' ' ∨ c = '\t' ∨ c = '\n' ∨ c = '\r'

/-- Value of a (non-empty) digit string. -/
def digitsVal (cs : List Char) : Int :=
  cs.foldl (fun a c => 10 * a + Int.ofNat (c.toNat - 48)) 0

/-- `asi_error_code` (lines 108-113): `sscanf(response, "e%d", &error_code)`;
the literal `e` must match the first reply byte, then `%d` skips whitespace,
takes an optional sign and at least one digit.  Any parse failure leaves the
result 0. -/
def asi_error_code (response : String) : Int :=
  match response.data with
  | 'e' :: rest =>
    let rest1 := rest.dropWhile isSpaceC
    match rest1 with
    | '+' :: t =>
      match t with
      | c :: _ => if c.isDigit then digitsVal (t.takeWhile Char.isDigit) else 0
      | [] => 0
    | '-' :: t =>
      match t with
      | c :: _ => if c.isDigit then -digitsVal (t.takeWhile Char.isDigit) else 0
      | [] => 0
    | c :: _ => if c.isDigit then digitsVal (rest1.takeWhile Char.isDigit) else 0
    | [] => 0
  | _ => 0

/-- `asi_error_string` (lines 92-106): the fixed message table indexed by the
device error code.  The C parameter is `unsigned int`, so a negative argument
converts to a value above 8 and is, like any code above 8, replaced by 0. -/
def asi_error_string (code : Int) : String :=
  let tbl := ["", "Prameters out of range", "Format error", "Mount not initialized",
    "Mount is Moving", "Target is below horizon", "Target is beow the altitude limit",
    "Time and location is not set", "Unkonwn error"]
  let c : Nat := if code < 0 ∨ code > 8 then 0 else code.toNat
  tbl.getD c ""

/-- `printf "%02d"` for the in-range (non-negative) calendar fields. -/
def pad2 (n : Int) : String :=
  if n < 0 then toString n
  else if n < 10 then "0" ++ toString n
  else toString n

/-- `printf "%04d"` for the non-negative pulse durations. -/
def pad4 (n : Int) : String :=
  if n < 0 then toString n
  else if n < 10 then "000" ++ toString n
  else if n < 100 then "00" ++ toString n
  else if n < 1000 then "0" ++ toString n
  else toString n

/-- `printf "%+03d"`: explicit sign, zero-padded to two digits. -/
def fmtPlus03 (n : Int) : String :=
  let a := if n < 0 then -n else n
  let sgn := if n < 0 then "-" else "+"
  if a < 10 then sgn ++ "0" ++ toString a else sgn ++ toString a

/-- Broken-down civil time, the fields of C `struct tm` the driver uses.
`year` counts from 1900 and `mon` is 0-based, as in libc. -/
structure Tm where
  sec : Int
  min : Int
  hour : Int
  mday : Int
  mon : Int
  year : Int
deriving DecidableEq, Repr

/-- Model of libc `gmtime_r`: splits Unix seconds into proleptic-Gregorian
civil fields (no leap seconds), using the standard days-to-civil algorithm. -/
def gmtime_r (t : Int) : Tm :=
  let days := Int.fdiv t 86400
  let rem := t - 86400 * days
  let hour := Int.tdiv rem 3600
  let minute := Int.tdiv (Int.tmod rem 3600) 60
  let sec := Int.tmod rem 60
  let z := days + 719468
  let era := Int.fdiv z 146097
  let doe := z - era * 146097
  let yoe := Int.tdiv (doe - Int.tdiv doe 1460 + Int.tdiv doe 36524 - Int.tdiv doe 146096) 365
  let y := yoe + era * 400
  let doy := doe - (365 * yoe + Int.tdiv yoe 4 - Int.tdiv yoe 100)
  let mp := Int.tdiv (5 * doy + 2) 153
  let d := doy - Int.tdiv (153 * mp + 2) 5 + 1
  let m := mp + (if mp < 10 then 3 else -9)
  let y' := y + (if m ≤ 2 then 1 else 0)
  { sec := sec, min := minute, hour := hour, mday := d, mon := m - 1, year := y' - 1900 }

/-- The `:SCMM/DD/YY#` date command `asi_set_utc` builds (line 234) from the
offset-shifted seconds. -/
def sc_command (seconds : Int) : String :=
  let tm := gmtime_r seconds
  ":SC" ++ pad2 (tm.mon + 1) ++ "/" ++ pad2 tm.mday ++ "/" ++ pad2 (Int.tmod tm.year 100) ++ "#"

/-- The `:SG<±HH>#` UTC-offset command (line 246); note the sign flip. -/
def sg_command (utcOffset : Int) : String := ":SG" ++ fmtPlus03 (-utcOffset) ++ "#"

/-- The `:SL<HH:MM:SS>#` local-time command (line 250). -/
def sl_command (seconds : Int) : String :=
  let tm := gmtime_r seconds
  ":SL" ++ pad2 tm.hour ++ ":" ++ pad2 tm.min ++ ":" ++ pad2 tm.sec ++ "#"

/-- The `:SH<d>#` DST command (line 243), sent only when the device variant
uses DST commands; its result is ignored by the C code. -/
def sh_command (daylight : Int) : String := ":SH" ++ toString daylight ++ "#"

/-- `asi_set_utc` (lines 229-258): shifts the timestamp by the UTC offset,
then sends date, the optional DST flag (reply ignored), UTC offset and local
time; each checked exchange must answer with first byte `'1'` (the date reply
is read with `max = 1`, so only its first byte is ever inspected) or the
sequence stops and the call fails.  `use_dst_commands` and libc `daylight` are
the first two parameters. -/
def asi_set_utc (useDst : Bool) (daylight : Int) (secs utcOffset : Int) (ch : PChan) :
    Bool × PChan :=
  let seconds := secs + utcOffset * 3600
  let e1 := exchange ch (sc_command seconds)
  if e1.1 ∧ responseHead e1.2.1 = some '1' then
    let ch1 := if useDst then (exchange e1.2.2 (sh_command daylight)).2.2 else e1.2.2
    let e2 := exchange ch1 (sg_command utcOffset)
    if e2.1 ∧ responseHead e2.2.1 = some '1' then
      let e3 := exchange e2.2.2 (sl_command seconds)
      if e3.1 ∧ responseHead e3.2.1 = some '1' then (true, e3.2.2)
      else (false, e3.2.2)
    else (false, e2.2.2)
  else (false, e1.2.2)

/-- One `%d` directive of `sscanf`: skip whitespace, optional sign, at least
one digit; returns the rest of the input, or `none` on a conversion failure. -/
def scanIntRest (cs : List Char) : Option (List Char) :=
  let cs1 := cs.dropWhile isSpaceC
  let cs2 := match cs1 with
    | '+' :: t => t
    | '-' :: t => t
    | t => t
  match cs2 with
  | c :: _ => if c.isDigit then some (cs2.dropWhile Char.isDigit) else none
  | [] => none

/-- One `%c` directive of `sscanf`: consumes exactly one character. -/
def scanCharRest : List Char → Option (List Char)
  | _ :: t => some t
  | [] => none

/-- `sscanf(response, "%d%c%d%c%d", ...) == 5`, the reply-shape check
`asi_get_utc` applies to the date and time replies. -/
def scan3 (s : String) : Bool :=
  match scanIntRest s.data with
  | none => false
  | some r1 =>
    match scanCharRest r1 with
    | none => false
    | some r2 =>
      match scanIntRest r2 with
      | none => false
      | some r3 =>
        match scanCharRest r3 with
        | none => false
        | some r4 => (scanIntRest r4).isSome

/-- `asi_get_utc` (lines 260-285): reads date (`:GC#`), time (`:GL#`), offset
(`:GG#`) and, on DST-capable sessions, the DST flag (`:GH#`, failure ignored).
The date and time replies must parse as `%d%c%d%c%d`; the offset reply goes
through `atoi`, which cannot fail.  The `mktime` reconstruction of the returned
timestamp is an external libc collaborator and is not modelled; only the
success flag and the issued commands are. -/
def asi_get_utc (useDst : Bool) (ch : PChan) : Bool × PChan :=
  let e1 := exchange ch ":GC#"
  if e1.1 ∧ scan3 e1.2.1 then
    let e2 := exchange e1.2.2 ":GL#"
    if e2.1 ∧ scan3 e2.2.1 then
      let e3 := exchange e2.2.2 ":GG#"
      if e3.1 then
        if useDst then (true, (exchange e3.2.2 ":GH#").2.2)
        else (true, e3.2.2)
      else (false, e3.2.2)
    else (false, e2.2.2)
  else (false, e1.2.2)

/-- `asi_get_coordinates` (lines 331-341): `:GR#` then `:GD#`; succeeds iff
both exchanges do.  The numeric values go through the external `indigo_stod`
(which cannot fail) and are not needed by any claim, so they are elided. -/
def asi_get_coordinates (ch : PChan) : Bool × PChan :=
  let e1 := exchange ch ":GR#"
  if e1.1 then
    let e2 := exchange e1.2.2 ":GD#"
    (e2.1, e2.2.2)
  else (false, e1.2.2)

/-- `asi_slew` (lines 343-364): set target RA, set target Dec, start the slew.
The two target steps expect first byte `'1'`, the `:MS#` step expects `'0'`;
the first unexpected reply makes the call fail with the parsed device error
code and stops the chain.  `raStr`/`decStr` stand for the output of the
external `indigo_dtos` formatting of the numeric coordinates. -/
def asi_slew (raStr decStr : String) (ch : PChan) : Bool × Int × PChan :=
  let e1 := exchange ch (":Sr" ++ raStr ++ "#")
  if e1.1 ∧ responseHead e1.2.1 = some '1' then
    let e2 := exchange e1.2.2 (":Sd" ++ decStr ++ "#")
    if e2.1 ∧ responseHead e2.2.1 = some '1' then
      let e3 := exchange e2.2.2 ":MS#"
      if e3.1 ∧ responseHead e3.2.1 = some '0' then (true, 0, e3.2.2)
      else (false, asi_error_code e3.2.1, e3.2.2)
    else (false, asi_error_code e2.2.1, e2.2.2)
  else (false, asi_error_code e1.2.1, e1.2.2)

/-- `asi_set_guide_rate` (lines 391-398).  The C code clamps `ra` from below
at 10, then — testing `dec`, not `ra` — assigns 90 to `ra`, and prints
`ra / 100.0` with `"%.1f"` into `:Rg<rate>#` (a no-reply exchange; the command
string is returned here).  `"%.1f"` is modelled as nearest-tenth rounding of
the exact rational; it agrees with the C double formatting whenever the
clamped value is a multiple of 10, which covers all inputs the theorems use. -/
def asi_set_guide_rate (ra dec : Int) : String :=
  let ra1 := if ra < 10 then 10 else ra
  let ra2 := if dec > 90 then 90 else ra1
  let tenths := Int.tdiv (ra2 + 5) 10
  ":Rg" ++ toString (Int.tdiv tenths 10) ++ "." ++ toString (Int.tmod tenths 10) ++ "#"

/-- `asi_motion_dec` (lines 460-479): if a last north/south direction is
recorded (`lastMotionNS`, C char 0/'n'/'s', here `Option Char`), first send the
matching stop command; a stop failure aborts (state unchanged).  Then start
motion for whichever direction switch is set, recording it, or clear the
recorded direction when neither switch is set.  Returns (result, new
`lastMotionNS`, channel). -/
def asi_motion_dec (north south : Bool) (last : Option Char) (ch : PChan) :
    Bool × Option Char × PChan :=
  let st :=
    if last = some 'n' then
      let e := exchange ch ":Qn#"
      (e.1, e.2.2)
    else if last = some 's' then
      let e := exchange ch ":Qs#"
      (e.1, e.2.2)
    else (true, ch)
  if st.1 then
    if north then
      let e := exchange st.2 ":Mn#"
      (e.1, some 'n', e.2.2)
    else if south then
      let e := exchange st.2 ":Ms#"
      (e.1, some 's', e.2.2)
    else (true, none, st.2)
  else (false, last, st.2)

/-- `asi_motion_ra` (lines 481-500): the west/east twin of `asi_motion_dec`,
over `lastMotionWE`. -/
def asi_motion_ra (west east : Bool) (last : Option Char) (ch : PChan) :
    Bool × Option Char × PChan :=
  let st :=
    if last = some 'w' then
      let e := exchange ch ":Qw#"
      (e.1, e.2.2)
    else if last = some 'e' then
      let e := exchange ch ":Qe#"
      (e.1, e.2.2)
    else (true, ch)
  if st.1 then
    if west then
      let e := exchange st.2 ":Mw#"
      (e.1, some 'w', e.2.2)
    else if east then
      let e := exchange st.2 ":Me#"
      (e.1, some 'e', e.2.2)
    else (true, none, st.2)
  else (false, last, st.2)

/-- `asi_guide_dec` (lines 510-520): issue `:Mgn<dddd>#` when `north > 0`,
else `:Mgs<dddd>#` when `south > 0`, else do nothing and fail. -/
def asi_guide_dec (north south : Int) (ch : PChan) : Bool × PChan :=
  if north > 0 then
    let e := exchange ch (":Mgn" ++ pad4 north ++ "#")
    (e.1, e.2.2)
  else if south > 0 then
    let e := exchange ch (":Mgs" ++ pad4 south ++ "#")
    (e.1, e.2.2)
  else (false, ch)

/-- `asi_guide_ra` (lines 522-532): west/east twin of `asi_guide_dec`. -/
def asi_guide_ra (west east : Int) (ch : PChan) : Bool × PChan :=
  if west > 0 then
    let e := exchange ch (":Mgw" ++ pad4 west ++ "#")
    (e.1, e.2.2)
  else if east > 0 then
    let e := exchange ch (":Mge" ++ pad4 east ++ "#")
    (e.1, e.2.2)
  else (false, ch)

/-- Truncation toward zero of a rational, the rounding of C `fmod`'s implied
quotient. -/
def truncQ (q : ℚ) : ℤ := if 0 ≤ q then ⌊q⌋ else ⌈q⌉

/-- C `fmod` on exact rationals: `a - b * trunc (a / b)`. -/
def fmodQ (a b : ℚ) : ℚ := a - b * (truncQ (a / b) : ℚ)

/-- The numeric longitude `asi_set_site` (lines 312-329) encodes into its
`:Sg<DDD*MM>#` command: `fmod((360 - longitude), 360)` of the session's
longitude value (the C function reads the longitude property item at line 321,
which at every call site equals the `longitude` argument).  The `indigo_dtos`
minute formatting is an external collaborator, modelled as exact. -/
def set_site_longitude_wire (longitude : ℚ) : ℚ := fmodQ (360 - longitude) 360

/-- The longitude `asi_get_site` (lines 299-310) decodes from the device
reply value `w`: normalize a negative reading by adding 360, then take the
complement about 360.  `indigo_stod` is external, modelled as exact. -/
def get_site_longitude (w : ℚ) : ℚ :=
  let l := if w < 0 then w + 360 else w
  360 - l

/-- INDIGO property states the poll tick manipulates. -/
inductive PState where
  | ok
  | busy
  | alert
deriving DecidableEq, Repr

/-- The slice of the driver session state read and written by
`position_timer_callback`: the equatorial-coordinates property state, the
tracking switch pair (as one boolean), the home edge-detection state and
switch, the pier-side switch pair, the UTC property state, whether the link
handle is open, and the DST capability flag. -/
structure MountState where
  handleOpen : Bool
  eqState : PState
  trackingOn : Bool
  prevHome : Bool
  homeSw : Bool
  pierWest : Bool
  pierEast : Bool
  utcState : PState
  useDst : Bool
deriving DecidableEq, Repr

/-- Result of one poll tick: the new state, the channel (with the tick's wire
trace), and the reschedule delay in seconds (`none` when the handle was closed
and the callback did nothing). -/
structure TickResult where
  st : MountState
  ch : PChan
  delay : Option ℚ
deriving DecidableEq, Repr

/-- The `:GU#` step of the tick (lines 570-597): on success, the equatorial
state becomes ok when the status letters contain `N` (idle) and busy
otherwise; the tracking switch is set off when `n` is present and on when it
is absent (the C code only rewrites the switch when it currently disagrees);
the home switch edge-triggers on the `H` letter via `prev_home_state`. -/
def guStage (st : MountState) (ch : PChan) : MountState × Bool × PChan :=
  let e := exchange ch ":GU#"
  if e.1 then
    let gu := e.2.1
    let st1 := { st with eqState := if 'N' ∈ gu.data then PState.ok else PState.busy }
    let st2 :=
      if 'n' ∈ gu.data then
        (if st1.trackingOn then { st1 with trackingOn := false } else st1)
      else
        (if ¬ st1.trackingOn then { st1 with trackingOn := true } else st1)
    let st3 :=
      if 'H' ∈ gu.data then
        { st2 with homeSw := (if st2.prevHome = false then true else st2.homeSw),
                   prevHome := true }
      else
        { st2 with homeSw := (if st2.prevHome = true then false else st2.homeSw),
                   prevHome := false }
    (st3, true, e.2.2)
  else (st, false, e.2.2)

/-- The `:Gm#` pier-side step of the tick (lines 598-610): a `W` or `E` letter
selects the corresponding side when not already selected, `N` clears the
selection. -/
def pierStage (st : MountState) (ch : PChan) : MountState × Bool × PChan :=
  let e := exchange ch ":Gm#"
  if e.1 then
    let gm := e.2.1
    let st1 :=
      if 'W' ∈ gm.data ∧ ¬ st.pierWest then { st with pierWest := true, pierEast := false }
      else if 'E' ∈ gm.data ∧ ¬ st.pierEast then { st with pierEast := true, pierWest := false }
      else if 'N' ∈ gm.data ∧ (st.pierEast ∨ st.pierWest) then
        { st with pierWest := false, pierEast := false }
      else st
    (st1, true, e.2.2)
  else (st, false, e.2.2)

/-- `position_timer_callback` (lines 558-631), for one tick.  With an open
handle: read coordinates; only if that succeeded, run the `:GU#` status step,
and only if that succeeded, the `:Gm#` pier step; any failure so far marks the
equatorial state alert.  Then read the UTC block (always attempted) and set
the UTC property state, and reschedule at 0.5 s when the equatorial state is
busy, 1 s otherwise.  With a closed handle nothing happens and no reschedule
is requested.  The published coordinate values and property-update
notifications go to the external property layer and are not modelled. -/
def position_timer_callback (st : MountState) (ch : PChan) : TickResult :=
  if st.handleOpen then
    let c := asi_get_coordinates ch
    let g := if c.1 then guStage st c.2 else (st, false, c.2)
    let p := if g.2.1 then pierStage g.1 g.2.2 else g
    let st1 := if p.2.1 then p.1 else { p.1 with eqState := PState.alert }
    let u := asi_get_utc st1.useDst p.2.2
    let st2 := { st1 with utcState := if u.1 then PState.ok else PState.alert }
    { st := st2, ch := u.2,
      delay := some (if st2.eqState = PState.busy then (1 : ℚ)/2 else 1) }
  else
    { st := st, ch := ch, delay := none }

/-- One event of the byte-level read loop of `asi_command`: the `select`
timed out or failed (the loop just stops and the reply so far is returned),
the one-byte `read` failed (the whole call fails), or one byte arrived. -/
inductive ReadEvent where
  | timeout
  | ioError
  | byte (b : Nat)
deriving DecidableEq, Repr

/-- One event of the pre-write flush loop of `asi_command`: a `select` or
`read` error (the call fails), or one stray byte successfully drained. -/
inductive FlushEvent where
  | selErr
  | readErr
  | byte (b : Nat)
deriving DecidableEq, Repr

/-- Byte-level behaviour of the link for one `asi_command` call: what the
flush loop encounters, whether the `indigo_write` of the command succeeds,
and the events of the reply read loop. -/
structure Link where
  flushEvents : List FlushEvent
  writeOk : Bool
  readEvents : List ReadEvent
deriving DecidableEq, Repr

/-- The flush loop (lines 163-181): drain stray bytes until `select` reports
nothing more; any `select` or `read` error aborts the call. -/
def runFlush : List FlushEvent → Bool
  | [] => true
  | FlushEvent.selErr :: _ => false
  | FlushEvent.readErr :: _ => false
  | FlushEvent.byte _ :: rest => runFlush rest

/-- The sanitization of one received byte (lines 206-207): C `char` is signed,
so a byte with the high bit set reads as negative and is replaced by the
divider placeholder `':'` before any further use. -/
def sanitizeByte (b : Nat) : Char :=
  if 128 ≤ b then ':' else Char.ofNat b

/-- The reply read loop of `asi_command` (lines 188-211): while the buffer
(bounded by `max`) is not full, wait for a byte; a `select` timeout or error
ends the reply; a failed `read` fails the call; otherwise the byte is
sanitized, a `'#'` terminator ends the reply and any other byte is stored. -/
def readLoop : Nat → List ReadEvent → List Char → Option (List Char)
  | 0, _, acc => some acc.reverse
  | _ + 1, [], acc => some acc.reverse
  | room + 1, e :: rest, acc =>
    match e with
    | ReadEvent.timeout => some acc.reverse
    | ReadEvent.ioError => none
    | ReadEvent.byte b =>
      let c := sanitizeByte b
      if c = '#' then some acc.reverse
      else readLoop room rest (c :: acc)

/-- Outcome of one byte-level `asi_command` call. -/
structure CmdOutcome where
  success : Bool
  reply : List Char
deriving DecidableEq, Repr

/-- `asi_command` (lines 158-217) at byte level: run the flush loop (any error
there fails the call), write the command — the C code discards the result of
`indigo_write`, so `Link.writeOk` is deliberately never consulted — and, when
a reply buffer is supplied, run the read loop; a read error fails the call,
otherwise the accumulated reply (terminator excluded) is returned.  The
post-write sleep is pure timing and is not modelled. -/
def asi_command (l : Link) (expectReply : Bool) (max : Nat) : CmdOutcome :=
  if runFlush l.flushEvents then
    if expectReply then
      match readLoop max l.readEvents [] with
      | some r => { success := true, reply := r }
      | none => { success := false, reply := [] }
    else { success := true, reply := [] }
  else { success := false, reply := [] }

end MountAsi

namespace MountAsi

/-- The trace grows by exactly the issued command on every exchange. -/
theorem exchange_trace (ch : PChan) (cmd : String) :
    (exchange ch cmd).2.2.trace = ch.trace ++ [cmd] := by
  rcases ch with ⟨s, t⟩
  cases s with
  | nil => rfl
  | cons h rest => cases h <;> rfl

/-- Two strings differing at index 1 differ. -/
theorem string_ne_of_get1 {s t : String} (h : s.data.get? 1 ≠ t.data.get? 1) : s ≠ t :=
  fun e => h (congrArg (fun u => u.data.get? 1) e)

/-- Characters produced by `Char.ofNat` below 128 keep their code point. -/
theorem char_toNat_ofNat_small (b : Nat) (h : b < 128) : (Char.ofNat b).toNat = b := by
  unfold Char.ofNat
  rw [dif_pos (Or.inl (by omega))]
  rfl

/-- C2 (code bug): `asi_set_guide_rate` is claimed to clamp the requested RA
rate into [10, 90] before encoding, but the upper clamp tests `dec` instead of
`ra`: with requested RA=200, Dec=50 no clamp fires and the emitted command is
`:Rg2.0#`, outside the claimed [0.1, 0.9] encoded range, while the lower-bound
scenario RA=5 is clamped up to 10 and emits `:Rg0.1#` exactly as claimed. -/
theorem guide_rate_upper_clamp_tests_dec :
    asi_set_guide_rate 200 50 = ":Rg2.0#" ∧ asi_set_guide_rate 5 5 = ":Rg0.1#" := by
  constructor <;> rfl

/-- C10: a guide-pulse call in which both direction durations are ≤ 0 returns
failure and leaves the channel untouched (no wire command at all), on both the
dec (north/south) and the ra (west/east) axis. -/
theorem guide_pulse_nonpositive_noop (north south west east : Int) (chD chR : PChan)
    (hn : north ≤ 0) (hs : south ≤ 0) (hw : west ≤ 0) (he : east ≤ 0) :
    asi_guide_dec north south chD = (false, chD) ∧ asi_guide_ra west east chR = (false, chR) := by
  constructor
  · unfold asi_guide_dec
    rw [if_neg (by omega), if_neg (by omega)]
  · unfold asi_guide_ra
    rw [if_neg (by omega), if_neg (by omega)]

/-- Witness for `guide_pulse_nonpositive_noop` at durations 0 and -3. -/
theorem guide_pulse_nonpositive_noop_check :
    asi_guide_dec 0 0 ⟨[], []⟩ = (false, ⟨[], []⟩) ∧
    asi_guide_ra 0 (-3) ⟨[], []⟩ = (false, ⟨[], []⟩) :=
  guide_pulse_nonpositive_noop 0 0 0 (-3) ⟨[], []⟩ ⟨[], []⟩ (by decide) (by decide)
    (by decide) (by decide)

/-- C7: the longitude stored on the device by `asi_set_site` decodes back
through `asi_get_site` to the original longitude up to a multiple of 360
degrees: the double complement about 360 composes to the identity modulo 360
(the external minute formatting is modelled as exact, so this is the identity
up to that encoding resolution). -/
theorem site_longitude_roundtrip_mod360 (lon : ℚ) :
    ∃ k : ℤ, get_site_longitude (set_site_longitude_wire lon) = lon + 360 * k := by
  unfold get_site_longitude set_site_longitude_wire fmodQ
  by_cases h : (360 - lon) - 360 * ((truncQ ((360 - lon) / 360) : ℤ) : ℚ) < 0
  · refine ⟨truncQ ((360 - lon) / 360) - 1, ?_⟩
    rw [if_pos h]
    push_cast
    ring
  · refine ⟨truncQ ((360 - lon) / 360), ?_⟩
    rw [if_neg h]
    push_cast
    ring

/-- C1 (counterexample): issuing the dec motion operation twice with the same
requested direction (north) is claimed to issue one start and no extra stop,
but the second call first stops the recorded direction: the cumulative wire
trace of the two calls is start, stop, start — the repeated identical request
issued a `:Qn#` stop. -/
theorem motion_dec_repeat_issues_stop :
    (asi_motion_dec true false
        (asi_motion_dec true false none ⟨[Reply.ok "", Reply.ok "", Reply.ok ""], []⟩).2.1
        (asi_motion_dec true false none ⟨[Reply.ok "", Reply.ok "", Reply.ok ""], []⟩).2.2).2.2.trace
      = [":Mn#", ":Qn#", ":Mn#"] ∧
    ":Qn#" ∈ (asi_motion_dec true false
        (asi_motion_dec true false none ⟨[Reply.ok "", Reply.ok "", Reply.ok ""], []⟩).2.1
        (asi_motion_dec true false none ⟨[Reply.ok "", Reply.ok "", Reply.ok ""], []⟩).2.2).2.2.trace := by
  constructor <;> decide

/-- C1 (amended): on both axes, the motion operation issues exactly one stop
command — the one for the recorded last direction — before the (at most one)
start command whenever a last direction is recorded, whether the new request
is the same direction, the opposite one, or none; it issues no stop when no
direction is recorded; and a failed stop aborts the call without a start,
leaving the recorded direction unchanged. -/
theorem motion_axis_stop_before_start (a b : Bool) (s1 s2 : String) (rest rest2 : List Reply) :
    ((asi_motion_dec a b (some 'n') ⟨Reply.ok s1 :: Reply.ok s2 :: rest, []⟩).2.2.trace
        = ":Qn#" :: (if a then [":Mn#"] else if b then [":Ms#"] else []))
    ∧ ((asi_motion_dec a b (some 's') ⟨Reply.ok s1 :: Reply.ok s2 :: rest, []⟩).2.2.trace
        = ":Qs#" :: (if a then [":Mn#"] else if b then [":Ms#"] else []))
    ∧ ((asi_motion_dec a b none ⟨Reply.ok s1 :: Reply.ok s2 :: rest, []⟩).2.2.trace
        = (if a then [":Mn#"] else if b then [":Ms#"] else []))
    ∧ ((asi_motion_ra a b (some 'w') ⟨Reply.ok s1 :: Reply.ok s2 :: rest, []⟩).2.2.trace
        = ":Qw#" :: (if a then [":Mw#"] else if b then [":Me#"] else []))
    ∧ ((asi_motion_ra a b (some 'e') ⟨Reply.ok s1 :: Reply.ok s2 :: rest, []⟩).2.2.trace
        = ":Qe#" :: (if a then [":Mw#"] else if b then [":Me#"] else []))
    ∧ ((asi_motion_ra a b none ⟨Reply.ok s1 :: Reply.ok s2 :: rest, []⟩).2.2.trace
        = (if a then [":Mw#"] else if b then [":Me#"] else []))
    ∧ (asi_motion_dec a b (some 'n') ⟨Reply.fail :: rest2, []⟩
        = (false, some 'n', ⟨rest2, [":Qn#"]⟩)) := by
  cases a <;> cases b <;>
    simp [asi_motion_dec, asi_motion_ra, exchange]

/-- C3 (counterexample): a failed write is claimed to make the exchange fail,
but `asi_command` discards the result of `indigo_write`: on a link whose write
fails (`writeOk = false`) while a one-byte reply `'1'` arrives, the exchange
still returns success with that reply. -/
theorem command_write_failure_not_reported :
    asi_command ⟨[], false, [ReadEvent.byte 49]⟩ true 100
      = { success := true, reply := ['1'] } := by
  decide

/-- C3 (amended): a read failure during an expected reply is reported to the
caller — the exchange returns failure — but a write failure is not: the
result of the write is ignored, so the outcome of `asi_command` is entirely
independent of whether the write succeeded. -/
theorem command_read_failure_reported_write_ignored :
    (∀ (l : Link) (w : Bool) (expectReply : Bool) (max : Nat),
        asi_command { l with writeOk := w } expectReply max = asi_command l expectReply max)
    ∧ (∀ (l : Link) (max : Nat),
        runFlush l.flushEvents = true →
        readLoop max l.readEvents [] = none →
        (asi_command l true max).success = false) := by
  constructor
  · intro l w expectReply max
    rfl
  · intro l max h1 h2
    simp [asi_command, h1, h2]

/-- Witness for `command_read_failure_reported_write_ignored`: a concrete link
whose first read errors out makes the exchange fail. -/
theorem command_read_failure_reported_write_ignored_check :
    (asi_command ⟨[], true, [ReadEvent.ioError]⟩ true 8).success = false :=
  command_read_failure_reported_write_ignored.2 ⟨[], true, [ReadEvent.ioError]⟩ 8 rfl rfl


/-- C5: in `asi_slew`, when the `:Sr` target step is accepted with `'1'` and
the `:Sd` target step answers `e5`, the call fails with device error code 5,
whose message in `asi_error_string` is the below-horizon entry, and the
`:MS#` start-slew command is never put on the wire in that call. -/
theorem slew_below_horizon_aborts (raStr decStr r1 : String) (rest : List Reply)
    (h1 : responseHead r1 = some '1') :
    (asi_slew raStr decStr ⟨Reply.ok r1 :: Reply.ok "e5" :: rest, []⟩).1 = false
    ∧ (asi_slew raStr decStr ⟨Reply.ok r1 :: Reply.ok "e5" :: rest, []⟩).2.1 = 5
    ∧ ":MS#" ∉ (asi_slew raStr decStr ⟨Reply.ok r1 :: Reply.ok "e5" :: rest, []⟩).2.2.trace
    ∧ asi_error_string 5 = "Target is below horizon" := by
  have h2 : (responseHead "e5" = some '1') = False := eq_false (by decide)
  have hsr : (":Sr" ++ raStr ++ "#") ≠ ":MS#" := by
    apply string_ne_of_get1
    simp [String.data_append]
  have hsd : (":Sd" ++ decStr ++ "#") ≠ ":MS#" := by
    apply string_ne_of_get1
    simp [String.data_append]
  simp only [asi_slew, exchange, h1, h2, and_true, and_false, if_true, if_false]
  refine ⟨trivial, by decide, ?_, rfl⟩
  intro hmem
  simp only [List.nil_append, List.cons_append, List.mem_cons, List.not_mem_nil,
    or_false] at hmem
  rcases hmem with h | h
  · exact hsr h.symm
  · exact hsd h.symm

/-- Witness for `slew_below_horizon_aborts` with accepted reply `"1"`. -/
theorem slew_below_horizon_aborts_check :
    (asi_slew "10:20:30" "+45*10:20" ⟨[Reply.ok "1", Reply.ok "e5"], []⟩).1 = false
    ∧ (asi_slew "10:20:30" "+45*10:20" ⟨[Reply.ok "1", Reply.ok "e5"], []⟩).2.1 = 5
    ∧ ":MS#" ∉ (asi_slew "10:20:30" "+45*10:20" ⟨[Reply.ok "1", Reply.ok "e5"], []⟩).2.2.trace
    ∧ asi_error_string 5 = "Target is below horizon" :=
  slew_below_horizon_aborts "10:20:30" "+45*10:20" "1" [] rfl


/-- Two strings differing at index 2 differ. -/
theorem string_ne_of_get2 {s t : String} (h : s.data.get? 2 ≠ t.data.get? 2) : s ≠ t :=
  fun e => h (congrArg (fun u => u.data.get? 2) e)

/-- The third character of every `:SH<d>#` DST command is `H`. -/
theorem sh_command_get2 (d : Int) : (sh_command d).data.get? 2 = some 'H' := by
  simp [sh_command, String.data_append]

/-- C6: `asi_set_utc` without DST support.  Concretely, for local device time
2023-06-15T10:00:00 at UTC offset +2 (Unix seconds 1686816000) with all
exchanges accepted, it emits exactly `:SC06/15/23#`, `:SG-02#`, `:SL10:00:00#`
in that order and no `:SH<d>#` command.  Generally, a first reply whose first
byte is not `'1'` stops the sequence after the date command; a second such
reply stops it after the offset command; a bad third reply fails the call
after the three commands; and three accepted replies succeed with exactly the
date, offset, time commands on the wire. -/
theorem set_utc_order_and_abort :
    (asi_set_utc false 0 1686816000 2 ⟨[Reply.ok "1", Reply.ok "1", Reply.ok "1"], []⟩
        = (true, ⟨[], [":SC06/15/23#", ":SG-02#", ":SL10:00:00#"]⟩))
    ∧ (∀ d : Int, sh_command d ∉ [":SC06/15/23#", ":SG-02#", ":SL10:00:00#"])
    ∧ (∀ (daylight secs off : Int) (r1 : String) (rest : List Reply),
        responseHead r1 ≠ some '1' →
        asi_set_utc false daylight secs off ⟨Reply.ok r1 :: rest, []⟩
          = (false, ⟨rest, [sc_command (secs + off * 3600)]⟩))
    ∧ (∀ (daylight secs off : Int) (r1 r2 : String) (rest : List Reply),
        responseHead r1 = some '1' → responseHead r2 ≠ some '1' →
        asi_set_utc false daylight secs off ⟨Reply.ok r1 :: Reply.ok r2 :: rest, []⟩
          = (false, ⟨rest, [sc_command (secs + off * 3600), sg_command off]⟩))
    ∧ (∀ (daylight secs off : Int) (r1 r2 r3 : String) (rest : List Reply),
        responseHead r1 = some '1' → responseHead r2 = some '1' →
        responseHead r3 ≠ some '1' →
        asi_set_utc false daylight secs off
            ⟨Reply.ok r1 :: Reply.ok r2 :: Reply.ok r3 :: rest, []⟩
          = (false, ⟨rest, [sc_command (secs + off * 3600), sg_command off,
              sl_command (secs + off * 3600)]⟩))
    ∧ (∀ (daylight secs off : Int) (r1 r2 r3 : String) (rest : List Reply),
        responseHead r1 = some '1' → responseHead r2 = some '1' →
        responseHead r3 = some '1' →
        asi_set_utc false daylight secs off
            ⟨Reply.ok r1 :: Reply.ok r2 :: Reply.ok r3 :: rest, []⟩
          = (true, ⟨rest, [sc_command (secs + off * 3600), sg_command off,
              sl_command (secs + off * 3600)]⟩)) := by
  refine ⟨by decide, ?_, ?_, ?_, ?_, ?_⟩
  · intro d hmem
    have h2 := sh_command_get2 d
    simp only [List.mem_cons, List.not_mem_nil, or_false] at hmem
    rcases hmem with h | h | h
    · exact string_ne_of_get2 (s := sh_command d) (by rw [h2]; decide) h
    · exact string_ne_of_get2 (s := sh_command d) (by rw [h2]; decide) h
    · exact string_ne_of_get2 (s := sh_command d) (by rw [h2]; decide) h
  · intro daylight secs off r1 rest h1
    simp [asi_set_utc, exchange, h1]
  · intro daylight secs off r1 r2 rest h1 h2
    simp [asi_set_utc, exchange, h1, h2]
  · intro daylight secs off r1 r2 r3 rest h1 h2 h3
    simp [asi_set_utc, exchange, h1, h2, h3]
  · intro daylight secs off r1 r2 r3 rest h1 h2 h3
    simp [asi_set_utc, exchange, h1, h2, h3]

/-- Witness for `set_utc_order_and_abort`: abort cases at concrete replies. -/
theorem set_utc_order_and_abort_check :
    (asi_set_utc false 0 1686816000 2 ⟨[Reply.ok "0"], []⟩
        = (false, ⟨[], [":SC06/15/23#"]⟩))
    ∧ (asi_set_utc false 0 1686816000 2 ⟨[Reply.ok "1", Reply.ok "e2"], []⟩
        = (false, ⟨[], [":SC06/15/23#", ":SG-02#"]⟩))
    ∧ (asi_set_utc false 0 1686816000 2 ⟨[Reply.ok "1", Reply.ok "1", Reply.ok "e2"], []⟩
        = (false, ⟨[], [":SC06/15/23#", ":SG-02#", ":SL10:00:00#"]⟩))
    ∧ (asi_set_utc false 0 1686816000 2 ⟨[Reply.ok "1", Reply.ok "1", Reply.ok "1"], []⟩
        = (true, ⟨[], [":SC06/15/23#", ":SG-02#", ":SL10:00:00#"]⟩)) := by
  refine ⟨?_, ?_, ?_, ?_⟩
  · have h := set_utc_order_and_abort.2.2.1 0 1686816000 2 "0" [] (by decide)
    rw [h]
    decide
  · have h := set_utc_order_and_abort.2.2.2.1 0 1686816000 2 "1" "e2" [] (by decide) (by decide)
    rw [h]
    decide
  · have h := set_utc_order_and_abort.2.2.2.2.1 0 1686816000 2 "1" "1" "e2" []
      (by decide) (by decide) (by decide)
    rw [h]
    decide
  · have h := set_utc_order_and_abort.2.2.2.2.2 0 1686816000 2 "1" "1" "1" []
      (by decide) (by decide) (by decide)
    rw [h]
    decide


/-- The read loop over a pure byte stream: it accumulates the sanitized bytes
up to (excluding) the first `'#'`, truncated to the buffer bound. -/
theorem readLoop_bytes (bs : List Nat) (max : Nat) (acc : List Char) :
    readLoop max (bs.map ReadEvent.byte) acc
      = some (acc.reverse ++ ((bs.map sanitizeByte).takeWhile (fun c => c != '#')).take max) := by
  induction bs generalizing max acc with
  | nil => cases max <;> simp [readLoop]
  | cons b bs ih =>
    cases max with
    | zero => simp [readLoop]
    | succ m =>
      by_cases hc : sanitizeByte b = '#'
      · simp [readLoop, hc]
      · simp [readLoop, hc, ih]

/-- C9: an expected-reply `asi_command` over a stream of received bytes
succeeds and returns exactly the sanitized bytes read before the `'#'`
terminator (truncated to the buffer bound), the terminator itself excluded:
the reply never contains `'#'`, every reply character is a 7-bit code point,
and every received byte with the high bit set is replaced by the divider
placeholder `':'` rather than propagated raw. -/
theorem command_reply_sanitized (bs : List Nat) (max : Nat) :
    (asi_command ⟨[], true, bs.map ReadEvent.byte⟩ true max).success = true
    ∧ (asi_command ⟨[], true, bs.map ReadEvent.byte⟩ true max).reply
        = ((bs.map sanitizeByte).takeWhile (fun c => c != '#')).take max
    ∧ '#' ∉ (asi_command ⟨[], true, bs.map ReadEvent.byte⟩ true max).reply
    ∧ (∀ c ∈ (asi_command ⟨[], true, bs.map ReadEvent.byte⟩ true max).reply, c.toNat < 128)
    ∧ (∀ b : Nat, 128 ≤ b → sanitizeByte b = ':') := by
  have hcmd : asi_command ⟨[], true, bs.map ReadEvent.byte⟩ true max
      = { success := true,
          reply := ((bs.map sanitizeByte).takeWhile (fun c => c != '#')).take max } := by
    simp [asi_command, runFlush, readLoop_bytes bs max []]
  rw [hcmd]
  refine ⟨rfl, rfl, ?_, ?_, ?_⟩
  · intro hmem
    have hp := List.mem_takeWhile_imp (List.mem_of_mem_take hmem)
    simp at hp
  · intro c hmem
    have hc : c ∈ bs.map sanitizeByte :=
      (List.takeWhile_prefix (fun c => c != '#')).subset
        (List.take_subset _ _ hmem)
    rcases List.mem_map.mp hc with ⟨b, hb, rfl⟩
    unfold sanitizeByte
    by_cases h : 128 ≤ b
    · rw [if_pos h]
      decide
    · rw [if_neg h]
      rw [char_toNat_ofNat_small b (by omega)]
      omega
  · intro b hb
    simp [sanitizeByte, hb]


/-- The pier-side step never touches the tracking switch or the equatorial
state. -/
theorem pierStage_preserves (st : MountState) (ch : PChan) :
    (pierStage st ch).1.trackingOn = st.trackingOn
    ∧ (pierStage st ch).1.eqState = st.eqState := by
  rcases ch with ⟨s, t⟩
  rcases s with _ | ⟨r, tl⟩
  · simp [pierStage, exchange]
  · cases r with
    | fail => simp [pierStage, exchange]
    | ok gm =>
      simp only [pierStage, exchange]
      constructor <;> (repeat' split) <;> rfl

/-- The `:GU#` step on a successful exchange whose status letters contain
both `N` and `n`: it succeeds, reports tracking off, marks the equatorial
state ok, and consumes exactly the `:GU#` exchange. -/
theorem guStage_ok (st : MountState) (gu : String) (rest : List Reply) (tr : List String)
    (hn : 'n' ∈ gu.data) (hN : 'N' ∈ gu.data) :
    (guStage st ⟨Reply.ok gu :: rest, tr⟩).2.1 = true
    ∧ (guStage st ⟨Reply.ok gu :: rest, tr⟩).1.trackingOn = false
    ∧ (guStage st ⟨Reply.ok gu :: rest, tr⟩).1.eqState = PState.ok
    ∧ (guStage st ⟨Reply.ok gu :: rest, tr⟩).2.2 = ⟨rest, tr ++ [":GU#"]⟩ := by
  simp only [guStage, exchange]
  by_cases hH : 'H' ∈ gu.data <;> by_cases hT : st.trackingOn <;> by_cases hP : st.prevHome <;>
    simp [hH, hT, hP, hn, hN]

/-- The coordinate step on two successful exchanges. -/
theorem asi_get_coordinates_ok (gr gd : String) (rest : List Reply) (tr : List String) :
    asi_get_coordinates ⟨Reply.ok gr :: Reply.ok gd :: rest, tr⟩
      = (true, ⟨rest, tr ++ [":GR#", ":GD#"]⟩) := by
  simp [asi_get_coordinates, exchange]

/-- The coordinate step issues `:GR#` and possibly `:GD#`, nothing else. -/
theorem asi_get_coordinates_trace (ch : PChan) :
    ∃ t2, (asi_get_coordinates ch).2.trace = ch.trace ++ t2
      ∧ (t2 = [":GR#"] ∨ t2 = [":GR#", ":GD#"]) := by
  simp only [asi_get_coordinates]
  split
  · exact ⟨[":GR#", ":GD#"], by simp [exchange_trace], Or.inr rfl⟩
  · exact ⟨[":GR#"], by simp [exchange_trace], Or.inl rfl⟩

/-- The UTC step always issues `:GC#` first, followed only by `:GL#`,
`:GG#` or `:GH#` commands. -/
theorem asi_get_utc_trace (useDst : Bool) (ch : PChan) :
    ∃ t2, (asi_get_utc useDst ch).2.trace = ch.trace ++ (":GC#" :: t2)
      ∧ ∀ c ∈ t2, c = ":GL#" ∨ c = ":GG#" ∨ c = ":GH#" := by
  simp only [asi_get_utc]
  split
  · split
    · split
      · split
        · exact ⟨[":GL#", ":GG#", ":GH#"], by simp [exchange_trace], by decide⟩
        · exact ⟨[":GL#", ":GG#"], by simp [exchange_trace], by decide⟩
      · exact ⟨[":GL#", ":GG#"], by simp [exchange_trace], by decide⟩
    · exact ⟨[":GL#"], by simp [exchange_trace], by decide⟩
  · exact ⟨[], by simp [exchange_trace], by decide⟩


/-- C8: a poll tick whose `:GU#` status reply contains both `N` and `n`
(after a successful coordinate read) ends with tracking reported off and the
equatorial state not busy, and reschedules at the idle 1-second cadence —
whatever the rest of the tick's exchanges do. -/
theorem tick_status_idle_not_tracking (st : MountState) (gr gd gu : String) (rest : List Reply)
    (hOpen : st.handleOpen = true) (hN : 'N' ∈ gu.data) (hn : 'n' ∈ gu.data) :
    (position_timer_callback st
        ⟨Reply.ok gr :: Reply.ok gd :: Reply.ok gu :: rest, []⟩).st.trackingOn = false
    ∧ (position_timer_callback st
        ⟨Reply.ok gr :: Reply.ok gd :: Reply.ok gu :: rest, []⟩).st.eqState ≠ PState.busy
    ∧ (position_timer_callback st
        ⟨Reply.ok gr :: Reply.ok gd :: Reply.ok gu :: rest, []⟩).delay = some 1 := by
  obtain ⟨hg1, hgtr, hgeq, hgch⟩ := guStage_ok st gu rest [":GR#", ":GD#"] hn hN
  obtain ⟨hp1, hp2⟩ := pierStage_preserves
    (guStage st ⟨Reply.ok gu :: rest, [":GR#", ":GD#"]⟩).1
    (guStage st ⟨Reply.ok gu :: rest, [":GR#", ":GD#"]⟩).2.2
  simp only [position_timer_callback, hOpen, asi_get_coordinates_ok, List.nil_append,
    hg1, if_true]
  by_cases hps : (pierStage (guStage st ⟨Reply.ok gu :: rest, [":GR#", ":GD#"]⟩).1
      (guStage st ⟨Reply.ok gu :: rest, [":GR#", ":GD#"]⟩).2.2).2.1 = true
  · simp only [hps, if_true]
    refine ⟨by simp [hp1, hgtr], by simp [hp2, hgeq], by simp [hp2, hgeq]⟩
  · simp only [hps, if_false]
    refine ⟨by simp [hp1, hgtr], by simp, by simp⟩

/-- Witness for `tick_status_idle_not_tracking` on a concrete session. -/
theorem tick_status_idle_not_tracking_check :
    (position_timer_callback
        ⟨true, PState.ok, true, false, false, false, false, PState.ok, false⟩
        ⟨[Reply.ok "x", Reply.ok "y", Reply.ok "GNn", Reply.ok "W"], []⟩).st.trackingOn = false
    ∧ (position_timer_callback
        ⟨true, PState.ok, true, false, false, false, false, PState.ok, false⟩
        ⟨[Reply.ok "x", Reply.ok "y", Reply.ok "GNn", Reply.ok "W"], []⟩).st.eqState ≠ PState.busy
    ∧ (position_timer_callback
        ⟨true, PState.ok, true, false, false, false, false, PState.ok, false⟩
        ⟨[Reply.ok "x", Reply.ok "y", Reply.ok "GNn", Reply.ok "W"], []⟩).delay = some 1 :=
  tick_status_idle_not_tracking _ "x" "y" "GNn" [Reply.ok "W"] rfl (by decide) (by decide)

/-- C4 (counterexample): on a tick whose `:GR#` coordinate read fails, the
remaining status and pier-side reads are claimed to still be attempted, but
the wire trace of the tick contains neither `:GU#` nor `:Gm#` — only the
failed coordinate read and the UTC block. -/
theorem tick_coordinate_failure_skips_status_read :
    (position_timer_callback
        ⟨true, PState.ok, true, false, false, false, false, PState.ok, false⟩
        ⟨[Reply.fail, Reply.ok "06/15/23", Reply.ok "10:00:00", Reply.ok "02"], []⟩).ch.trace
      = [":GR#", ":GC#", ":GL#", ":GG#"]
    ∧ ":GU#" ∉ (position_timer_callback
        ⟨true, PState.ok, true, false, false, false, false, PState.ok, false⟩
        ⟨[Reply.fail, Reply.ok "06/15/23", Reply.ok "10:00:00", Reply.ok "02"], []⟩).ch.trace
    ∧ ":Gm#" ∉ (position_timer_callback
        ⟨true, PState.ok, true, false, false, false, false, PState.ok, false⟩
        ⟨[Reply.fail, Reply.ok "06/15/23", Reply.ok "10:00:00", Reply.ok "02"], []⟩).ch.trace := by
  refine ⟨by decide, by decide, by decide⟩

/-- C4 (amended): a tick whose coordinate read fails marks the equatorial
state alert, skips the `:GU#` status and `:Gm#` pier-side reads, still
attempts the UTC/offset read, and reschedules the next tick (at the 1-second
cadence, the equatorial state being alert, not busy). -/
theorem tick_coordinate_failure_behavior (st : MountState) (ch : PChan)
    (hOpen : st.handleOpen = true) (hTr : ch.trace = [])
    (hFail : (asi_get_coordinates ch).1 = false) :
    (position_timer_callback st ch).st.eqState = PState.alert
    ∧ ":GU#" ∉ (position_timer_callback st ch).ch.trace
    ∧ ":Gm#" ∉ (position_timer_callback st ch).ch.trace
    ∧ ":GC#" ∈ (position_timer_callback st ch).ch.trace
    ∧ (position_timer_callback st ch).delay = some 1 := by
  obtain ⟨t2, hct, hc2⟩ := asi_get_coordinates_trace ch
  obtain ⟨t3, hut, hm3⟩ := asi_get_utc_trace st.useDst (asi_get_coordinates ch).2
  simp only [position_timer_callback, hOpen, hFail, Bool.false_eq_true, if_true, if_false]
  have htr : (asi_get_utc st.useDst (asi_get_coordinates ch).2).2.trace
      = t2 ++ (":GC#" :: t3) := by
    rw [hut, hct, hTr]
    simp
  refine ⟨by simp, ?_, ?_, ?_, by simp⟩
  · rw [htr]
    intro hmem
    rcases List.mem_append.mp hmem with h | h
    · rcases hc2 with rfl | rfl <;> exact absurd h (by decide)
    · rcases List.mem_cons.mp h with h | h
      · exact absurd h (by decide)
      · rcases hm3 _ h with h | h | h <;> exact absurd h (by decide)
  · rw [htr]
    intro hmem
    rcases List.mem_append.mp hmem with h | h
    · rcases hc2 with rfl | rfl <;> exact absurd h (by decide)
    · rcases List.mem_cons.mp h with h | h
      · exact absurd h (by decide)
      · rcases hm3 _ h with h | h | h <;> exact absurd h (by decide)
  · rw [htr]
    exact List.mem_append.mpr (Or.inr (List.mem_cons_self _ _))

/-- Witness for `tick_coordinate_failure_behavior` on a concrete failing
tick. -/
theorem tick_coordinate_failure_behavior_check :
    (position_timer_callback
        ⟨true, PState.ok, true, false, false, false, false, PState.ok, false⟩
        ⟨[Reply.fail, Reply.ok "06/15/23", Reply.ok "10:00:00", Reply.ok "02"], []⟩).st.eqState
      = PState.alert
    ∧ ":GU#" ∉ (position_timer_callback
        ⟨true, PState.ok, true, false, false, false, false, PState.ok, false⟩
        ⟨[Reply.fail, Reply.ok "06/15/23", Reply.ok "10:00:00", Reply.ok "02"], []⟩).ch.trace
    ∧ ":Gm#" ∉ (position_timer_callback
        ⟨true, PState.ok, true, false, false, false, false, PState.ok, false⟩
        ⟨[Reply.fail, Reply.ok "06/15/23", Reply.ok "10:00:00", Reply.ok "02"], []⟩).ch.trace
    ∧ ":GC#" ∈ (position_timer_callback
        ⟨true, PState.ok, true, false, false, false, false, PState.ok, false⟩
        ⟨[Reply.fail, Reply.ok "06/15/23", Reply.ok "10:00:00", Reply.ok "02"], []⟩).ch.trace
    ∧ (position_timer_callback
        ⟨true, PState.ok, true, false, false, false, false, PState.ok, false⟩
        ⟨[Reply.fail, Reply.ok "06/15/23", Reply.ok "10:00:00", Reply.ok "02"], []⟩).delay
      = some 1 :=
  tick_coordinate_failure_behavior _ _ rfl rfl (by decide)

end MountAsi
